import Mathlib

/-!
Verification of the chat-template repository core: the `DataIndexer`
ingestion / normalization / FAISS indexing pipeline (`src/data_indexer.py`),
its persistence wiring (`src/main.py`), and the `QueryGemini` session
history and streaming logic (`src/query_gemini.py`), shallowly embedded
as executable Lean definitions.

Conventions of the embedding:
* pandas cells are modelled by `Cell` (null / string / datetime); a pandas
  column carries an explicit dtype, as in pandas, since
  `select_dtypes(include=["datetime"])` keys on the dtype, not the values.
* embeddings are opaque: every function that calls the sentence-transformer
  model takes an `encode : String → Vec` parameter (`Vec := List Int`,
  exact arithmetic standing in for the float vectors; FAISS `IndexFlatL2`
  returns squared L2 distances, which are polynomial, so the distance
  computation itself is exact).
* Python exceptions are `Except Err`; each `Err` constructor corresponds to
  one concrete `raise` site in the source.
-/

/-- A pandas timestamp (`datetime64[ns]` is restricted to 4-digit years,
so digit-extraction rendering is faithful on the representable range). -/
structure PandasDateTime where
  year : Nat
  month : Nat
  day : Nat
  hour : Nat
  minute : Nat
  second : Nat
deriving DecidableEq

/-- One pandas cell: missing (`NaN`/`NaT`), a string, or a datetime value. -/
inductive Cell where
  | null : Cell
  | str (s : String) : Cell
  | dt (t : PandasDateTime) : Cell
deriving DecidableEq

/-- Column dtypes relevant to `handle_nat_values`: `select_dtypes` picks
columns whose dtype is datetime64; everything else behaves as `object`. -/
inductive Dtype where
  | object : Dtype
  | datetime : Dtype
deriving DecidableEq

/-- A pandas column: name, dtype, cells (top to bottom). -/
structure Column where
  name : String
  dtype : Dtype
  cells : List Cell
deriving DecidableEq

/-- A pandas DataFrame, as its list of columns. -/
abbrev DataFrame := List Column

/-- `pd.isnull` on one cell. -/
def cellIsNull : Cell → Bool
  | Cell.null => true
  | _ => false

/-- `self.data.where(pd.notnull(self.data), "").fillna("")`
(data_indexer.py line 65) on one column: every null cell becomes the empty
string.  In pandas, writing `""` into a datetime64 column changes its dtype
to `object`, so a datetime column that contained a null loses its dtype. -/
def fillNullsCol (c : Column) : Column :=
  { name := c.name
    dtype := if c.cells.any cellIsNull then Dtype.object else c.dtype
    cells := c.cells.map (fun x => if cellIsNull x then Cell.str "" else x) }

/-- Whether a timestamp has a zero time-of-day component. -/
def isMidnight (t : PandasDateTime) : Bool :=
  t.hour == 0 && t.minute == 0 && t.second == 0

/-- Two decimal digits of `n` (zero padded). -/
def digitChar2 (n : Nat) : List Char :=
  [Char.ofNat (48 + n / 10 % 10), Char.ofNat (48 + n % 10)]

/-- Four decimal digits of `n` (zero padded). -/
def digitChar4 (n : Nat) : List Char :=
  [Char.ofNat (48 + n / 1000 % 10), Char.ofNat (48 + n / 100 % 10),
   Char.ofNat (48 + n / 10 % 10), Char.ofNat (48 + n % 10)]

/-- Characters of the `YYYY-MM-DD` rendering of a timestamp. -/
def renderDateChars (t : PandasDateTime) : List Char :=
  digitChar4 t.year ++ '-' :: digitChar2 t.month ++ '-' :: digitChar2 t.day

/-- The `YYYY-MM-DD` rendering of a timestamp. -/
def renderDate (t : PandasDateTime) : String :=
  String.mk (renderDateChars t)

/-- The `YYYY-MM-DD HH:MM:SS` rendering of a timestamp. -/
def renderDateTime (t : PandasDateTime) : String :=
  String.mk (renderDateChars t ++ ' ' :: digitChar2 t.hour
    ++ ':' :: digitChar2 t.minute ++ ':' :: digitChar2 t.second)

/-- pandas renders a datetime64 column date-only exactly when every
timestamp in the column is at midnight. -/
def colAllMidnight (c : Column) : Bool :=
  c.cells.all (fun x => match x with
    | Cell.dt t => isMidnight t
    | _ => true)

/-- `astype(str)` on one cell of a datetime column: datetime values render
date-only when the whole column is at midnight, otherwise with the time
component; non-datetime cells are untouched. -/
def renderDtCell (dateOnly : Bool) : Cell → Cell
  | Cell.dt t => Cell.str (if dateOnly then renderDate t else renderDateTime t)
  | x => x

/-- Lines 67-68 of data_indexer.py: for each column of dtype datetime,
`self.data[column] = self.data[column].astype(str)`. -/
def astypeStrCol (c : Column) : Column :=
  if c.dtype = Dtype.datetime then
    { name := c.name, dtype := Dtype.object,
      cells := c.cells.map (renderDtCell (colAllMidnight c)) }
  else c

/-- `handle_nat_values` on one column: null replacement, then the
datetime-to-string pass (which sees the post-replacement dtypes). -/
def handleNatCol (c : Column) : Column :=
  astypeStrCol (fillNullsCol c)

/-- `DataIndexer.handle_nat_values` (data_indexer.py lines 58-69). -/
def handle_nat_values (df : DataFrame) : DataFrame :=
  df.map handleNatCol

/-- `self.data.isnull().values.any()` (data_indexer.py line 146). -/
def hasNull (df : DataFrame) : Bool :=
  df.any (fun c => c.cells.any cellIsNull)

/-- Python exceptions raised by the embedded code, one constructor per
`raise` site. -/
inductive Err where
  | fileNotFound : Err
  | readFailure : Err
  | noDataLoaded : Err
  | noDataFound : Err
  | serializeFailure : Err
  | dataIntegrity : Err
  | emptyEmbeddings : Err
  | indexNotBuilt : Err
deriving DecidableEq

/-- The null re-verification guard of `index_faiss`
(data_indexer.py lines 145-147): raise if any null survived
`handle_nat_values`, otherwise pass the data through. -/
def verifyNoNull (df : DataFrame) : Except Err DataFrame :=
  if hasNull df then Except.error Err.dataIntegrity else Except.ok df

/-- One row of `to_dict(orient="records")`: column name to cell. -/
abbrev Record := List (String × Cell)

/-- `len(self.data)`: the number of rows of a DataFrame. -/
def nrows : DataFrame → Nat
  | [] => 0
  | c :: _ => c.cells.length

/-- `self.data.to_dict(orient="records")`: one mapping per row,
columns in DataFrame order. -/
def to_records (df : DataFrame) : List Record :=
  (List.range (nrows df)).map
    (fun i => df.map (fun c => (c.name, (c.cells.get? i).getD Cell.null)))

/-- An embedding vector (exact-arithmetic stand-in for float32). -/
abbrev Vec := List Int

/-- The in-memory state of a `DataIndexer` instance: `self.data` and
`self.index` (the FAISS `IndexFlatL2` is its ordered vector list). -/
structure DataIndexer where
  data : Option DataFrame
  index : Option (List Vec)
deriving DecidableEq

/-- `DataIndexer.__init__` (data_indexer.py lines 12-42): with a file path
given, raise `FileNotFoundError` when the path does not exist; in every
case, `self.data` is loaded from `data.json` when that file exists
(`dataFile`), and `self.index` starts as `None`. -/
def dataIndexerInit (filePath : Option String) (pathExists : Bool)
    (dataFile : Option DataFrame) : Except Err DataIndexer :=
  match filePath with
  | some _ =>
      if pathExists then Except.ok { data := dataFile, index := none }
      else Except.error Err.fileNotFound
  | none => Except.ok { data := dataFile, index := none }

/-- `DataIndexer.read_excel` (data_indexer.py lines 44-56): `raw` is the
result of `pd.read_excel` (`none` when the file is unreadable, in which
case the wrapped `ValueError` is raised); on success the data is stored
and `handle_nat_values` runs immediately. -/
def read_excel (st : DataIndexer) (raw : Option DataFrame) :
    Except Err DataIndexer :=
  match raw with
  | none => Except.error Err.readFailure
  | some df => Except.ok { st with data := some (handle_nat_values df) }

/-- `DataIndexer.convert_to_json` (data_indexer.py lines 79-94): raise when
no data is loaded, raise `"No data found in the DataFrame."` when the
record list is empty, otherwise return the records. -/
def convert_to_json (st : DataIndexer) : Except Err (List Record) :=
  match st.data with
  | none => Except.error Err.noDataLoaded
  | some df =>
      match to_records df with
      | [] => Except.error Err.noDataFound
      | r :: rs => Except.ok (r :: rs)

/-- `json.dumps` of one cell value: strings serialize, a surviving
`Timestamp` object raises `TypeError` (caught as `ValueError` by the
caller), a surviving `NaT` likewise. -/
def serializeCell : Cell → Option String
  | Cell.str s => some ("\"" ++ s ++ "\"")
  | _ => none

/-- `json.dumps(row)` for one record (quoting model simplified: the text
only ever feeds the opaque `encode` parameter). -/
def serializeRecord (r : Record) : Option String :=
  (r.mapM (fun kv => (serializeCell kv.2).map
      (fun v => "\"" ++ kv.1 ++ "\": " ++ v))).map
    (fun fs => "\x7b" ++ String.intercalate ", " fs ++ "\x7d")

/-- The insertion loop of `index_faiss` (data_indexer.py lines 166-169):
add each embedding in order; when a callback is supplied, invoke it with
`(i + 1, total)` right after the i-th insertion.  Returns the vectors now
in the index together with the list of callback invocations, in order. -/
def addLoop (embs : List Vec) (i total : Nat) (useCallback : Bool) :
    List Vec × List (Nat × Nat) :=
  match embs with
  | [] => ([], [])
  | v :: vs =>
      let rest := addLoop vs (i + 1) total useCallback
      (v :: rest.1, (if useCallback then [(i + 1, total)] else []) ++ rest.2)

/-- `DataIndexer.index_faiss` (data_indexer.py lines 135-171): require
loaded data, re-run `handle_nat_values`, re-verify the no-null invariant,
serialize the cleaned records (`json.dumps` raising on non-serializable
survivors), embed the texts, fail on an empty embedding list
(`embeddings[0]` raises), then insert vector by vector with progress
callbacks.  Returns the updated state and the callback invocations. -/
def index_faiss (encode : String → Vec) (st : DataIndexer)
    (useCallback : Bool) : Except Err (DataIndexer × List (Nat × Nat)) :=
  match st.data with
  | none => Except.error Err.noDataLoaded
  | some df =>
      match verifyNoNull (handle_nat_values df) with
      | Except.error e => Except.error e
      | Except.ok cleaned =>
          match (to_records cleaned).mapM serializeRecord with
          | none => Except.error Err.serializeFailure
          | some texts =>
              match texts.map encode with
              | [] => Except.error Err.emptyEmbeddings
              | e :: es =>
                  Except.ok
                    ({ data := some cleaned,
                       index :=
                         some (addLoop (e :: es) 0 (e :: es).length
                           useCallback).1 },
                     (addLoop (e :: es) 0 (e :: es).length useCallback).2)

/-- Squared L2 distance between two vectors (what FAISS `IndexFlatL2`
computes and reports). -/
def sqDist (u v : Vec) : Int :=
  (List.zipWith (fun a b => (a - b) * (a - b)) u v).sum

/-- Comparison on (distance, insertion position) pairs: smaller distance
first, ties by insertion order. -/
def distLe (a b : Int × Nat) : Bool :=
  if a.1 < b.1 then true
  else if a.1 = b.1 then decide (a.2 ≤ b.2)
  else false

/-- Insert into a list sorted by `distLe` (stable). -/
def insertSorted (x : Int × Nat) : List (Int × Nat) → List (Int × Nat)
  | [] => [x]
  | y :: ys => if distLe x y then x :: y :: ys else y :: insertSorted x ys

/-- Sort (distance, position) pairs by `distLe`. -/
def sortByDist (l : List (Int × Nat)) : List (Int × Nat) :=
  l.foldr insertSorted []

/-- `faiss.IndexFlatL2.search` label output for one query: the positions
of the `k` nearest stored vectors in non-decreasing (squared) L2 distance,
ties by insertion order; when fewer than `k` vectors are stored, the
missing label slots are filled with `-1`, so exactly `k` labels are always
returned. -/
def faissSearchIdx (vecs : List Vec) (q : Vec) (k : Nat) : List Int :=
  let scored := vecs.enum.map (fun p => (sqDist q p.2, p.1))
  let sorted := sortByDist scored
  (sorted.map (fun p => (p.2 : Int))).take k
    ++ List.replicate (k - vecs.length) (-1)

/-- Python list indexing `xs[i]`: negative indices count from the end. -/
def pyGet (xs : List Record) (i : Int) : Option Record :=
  if 0 ≤ i then xs.get? i.toNat
  else xs.get? ((xs.length : Int) + i).toNat

/-- `DataIndexer.search_faiss` (data_indexer.py lines 173-191): raise when
no index is built/loaded, embed the query, run the FAISS search, then
return `[json_data[idx] for idx in indices[0] if idx < len(json_data)]`
with Python indexing semantics (a `-1` label passes the guard and resolves
to the last record). -/
def search_faiss (encode : String → Vec) (st : DataIndexer) (query : String)
    (top_k : Nat) : Except Err (List Record) :=
  match st.index with
  | none => Except.error Err.indexNotBuilt
  | some vecs =>
      let idxs := faissSearchIdx vecs (encode query) top_k
      match convert_to_json st with
      | Except.error e => Except.error e
      | Except.ok rows =>
          Except.ok (idxs.filterMap (fun i =>
            if i < (rows.length : Int) then pyGet rows i else none))

/-- The persisted FAISS index file.  Modelled from the spec (§6, durable
index storage): `faiss.write_index` / `faiss.read_index` are library code
outside this repository; the spec requires the blob to round-trip the raw
vector set exactly and to contain nothing else, so the blob is the ordered
vector list itself. -/
abbrev Blob := List Vec

/-- `faiss.write_index(self.index, path)` (data_indexer.py line 231):
serializes the vectors of the index, and only those. -/
def write_index (vecs : List Vec) : Blob := vecs

/-- `faiss.read_index(path)` (main.py line 125). -/
def read_index (b : Blob) : List Vec := b

/-- What `process_and_index` step 5 writes to `faiss_index.bin`: the blob
of the current index, if one exists. -/
def persistBlob (st : DataIndexer) : Option Blob :=
  st.index.map write_index

/-- `initialize_faiss_index` (main.py lines 114-133): when the index file
exists, construct a `DataIndexer` whose data comes from `data.json`
(passed separately) and whose index is read from the blob; otherwise no
indexer is available. -/
def init_faiss_index (blob : Option Blob) (dataFile : Option DataFrame) :
    Option DataIndexer :=
  match blob with
  | some b => some { data := dataFile, index := some (read_index b) }
  | none => none

/-- `collections.deque(maxlen=cap).append`: append at the tail, dropping
from the head whatever exceeds the capacity. -/
def dqAppend (cap : Nat) (xs : List String) (x : String) : List String :=
  ((xs ++ [x]).drop ((xs ++ [x]).length - cap))

/-- The history capacity: `deque(maxlen=10)` (query_gemini.py line 17). -/
def histCap : Nat := 10

/-- Python `str.strip()`: remove leading and trailing whitespace. -/
def pyStrip (s : String) : String :=
  String.mk (((s.toList.dropWhile Char.isWhitespace).reverse.dropWhile
    Char.isWhitespace).reverse)

/-- Concatenation of a list of strings (the `answer += chunk.text`
accumulator). -/
def concatAll : List String → String
  | [] => ""
  | c :: cs => c ++ concatAll cs

/-- A generation backend stream: the fragments it yields, and whether it
raises after yielding them instead of terminating normally. -/
structure StreamSpec where
  chunks : List String
  fails : Bool
deriving DecidableEq

/-- The observable outcome of one `query_gemini` call: the fragments
yielded to the caller, the session history afterwards, and whether the
call completed (`ok = false` is the re-raised `RuntimeError`). -/
structure GenOutcome where
  emitted : List String
  hist : List String
  ok : Bool
deriving DecidableEq

/-- The streaming loop of `query_gemini` (query_gemini.py lines 47-55):
yield each fragment while accumulating the answer; if the stream raises,
control jumps to the `except` clause with the history untouched; only
after normal exhaustion are the `Q:` and `A:` entries appended to the
session's deque. -/
def queryGeminiLoop (histIn : List String) (q : String) (acc : String)
    (emitted : List String) : List String → Bool → GenOutcome
  | [], true => { emitted := emitted, hist := histIn, ok := false }
  | [], false =>
      { emitted := emitted
        hist := dqAppend histCap (dqAppend histCap histIn ("Q: " ++ q))
          ("A: " ++ pyStrip acc)
        ok := true }
  | c :: cs, fails => queryGeminiLoop histIn q (acc ++ c) (emitted ++ [c]) cs fails

/-- `QueryGemini.query_gemini` (query_gemini.py lines 19-57), given the
current history of `self.session_id` and the backend stream. -/
def query_gemini (histIn : List String) (q : String) (s : StreamSpec) :
    GenOutcome :=
  queryGeminiLoop histIn q "" [] s.chunks s.fails

/-- One completed question/answer exchange driven through `query_gemini`
with a one-fragment stream that terminates normally. -/
def runTurn (hist : List String) (t : String × String) : List String :=
  (query_gemini hist t.1 { chunks := [t.2], fails := false }).hist

/-- A fresh session's history after a sequence of completed exchanges. -/
def runTurns (ts : List (String × String)) (hist : List String) : List String :=
  ts.foldl runTurn hist

/-- The two deque entries one exchange contributes. -/
def encTurn (t : String × String) : List String :=
  ["Q: " ++ t.1, "A: " ++ pyStrip t.2]

/-- Deque entries of a list of exchanges, oldest first. -/
def encTurns : List (String × String) → List String
  | [] => []
  | t :: ts => encTurn t ++ encTurns ts

/-- Whether a string is exactly of the shape `YYYY-MM-DD` (the format the
spec requires of normalized date cells). -/
def matchesYYYYMMDD (s : String) : Bool :=
  match s.toList with
  | [a, b, c, d, e, f, g, h, i, j] =>
      [a, b, c, d, f, g, i, j].all Char.isDigit && e = '-' && h = '-'
  | _ => false

deriving instance DecidableEq for Except

/-- A one-record indexed state: one object column with a single string
cell, and the corresponding one-vector FAISS index. -/
def stC1 : DataIndexer :=
  { data := some [{ name := "c", dtype := Dtype.object, cells := [Cell.str "x"] }],
    index := some [[0]] }

/-- The single record of `stC1`. -/
def recC1 : Record := [("c", Cell.str "x")]

/-- A one-column DataFrame whose datetime cell has a non-midnight time. -/
def dfC5 : DataFrame :=
  [{ name := "d", dtype := Dtype.datetime,
     cells := [Cell.dt ⟨2021, 1, 1, 15, 30, 0⟩] }]

/-- Eleven question/answer exchanges. -/
def turns11 : List (String × String) :=
  [("1", "a"), ("2", "b"), ("3", "c"), ("4", "d"), ("5", "e"), ("6", "f"),
   ("7", "g"), ("8", "h"), ("9", "i"), ("10", "j"), ("11", "k")]

/-- A two-row all-string dataset for concrete build runs. -/
def dfW6 : DataFrame :=
  [{ name := "c", dtype := Dtype.object,
     cells := [Cell.str "x", Cell.str "yy"] }]

/-- A fresh indexer state holding `dfW6`. -/
def stW6 : DataIndexer := { data := some dfW6, index := none }

/-- A one-column DataFrame whose only cell is null. -/
def dfNull : DataFrame :=
  [{ name := "c", dtype := Dtype.object, cells := [Cell.null] }]

theorem cellIsNull_renderDtCell (b : Bool) (x : Cell) :
    cellIsNull (renderDtCell b x) = cellIsNull x := by
  cases x <;> simp [renderDtCell, cellIsNull]

theorem fillNullsCol_no_null (c : Column) :
    (fillNullsCol c).cells.any cellIsNull = false := by
  simp only [fillNullsCol, List.any_map, List.any_eq_false, Function.comp]
  intro x _
  cases x <;> simp [cellIsNull]
  

theorem handleNatCol_no_null (c : Column) :
    (handleNatCol c).cells.any cellIsNull = false := by
  have hfill := fillNullsCol_no_null c
  unfold handleNatCol astypeStrCol
  by_cases hdt : (fillNullsCol c).dtype = Dtype.datetime
  · rw [if_pos hdt]
    simp only [List.any_map, Function.comp]
    rw [List.any_eq_false] at hfill ⊢
    intro x hx
    simp only [Function.comp_apply, cellIsNull_renderDtCell]
    exact hfill x hx
  · rw [if_neg hdt]
    exact hfill

theorem hasNull_handle_nat_values (df : DataFrame) :
    hasNull (handle_nat_values df) = false := by
  unfold hasNull handle_nat_values
  simp only [List.any_map, Function.comp]
  rw [List.any_eq_false]
  intro c _
  simp only [Function.comp_apply]
  rw [handleNatCol_no_null c]
  simp

theorem convert_to_json_no_index_error (st : DataIndexer) :
    convert_to_json st ≠ Except.error Err.indexNotBuilt := by
  unfold convert_to_json
  split
  · simp
  · split <;> simp

/-- C7: `search` fails with `IndexNotBuiltError` exactly when no index has
been established by a prior `build` or `load`: every call with
`self.index = None` raises it, and with an index present `search_faiss`
never raises it (its remaining failures are data-loading errors). -/
theorem search_error_iff_index_not_built (encode : String → Vec)
    (st : DataIndexer) (q : String) (k : Nat) :
    search_faiss encode st q k = Except.error Err.indexNotBuilt ↔
      st.index = none := by
  unfold search_faiss
  cases hidx : st.index with
  | none => simp
  | some vecs =>
      simp only [Option.some.injEq, reduceCtorEq, iff_false]
      cases hcj : convert_to_json st with
      | error e =>
          intro hcontra
          exact convert_to_json_no_index_error st
            (by rw [hcj]; injection hcontra with h; rw [h])
      | ok rows => simp

/-- C1 (code bug): with exactly one indexed record, a search with
`top_k = 2` returns two results instead of the one available match.
FAISS fills the missing label slot with `-1`; the guard
`if idx < len(json_data)` admits `-1`, and Python resolves
`json_data[-1]` to the last record, so the result list is padded with a
duplicate of the last record instead of being truncated. -/
theorem search_faiss_pads_with_last_record :
    search_faiss (fun _ => [0]) stC1 "q" 2 = Except.ok [recC1, recC1] ∧
    stC1.index.map List.length = some 1 := by decide

theorem queryGeminiLoop_fails (histIn : List String) (q : String) :
    ∀ (cs : List String) (acc : String) (emitted : List String),
      queryGeminiLoop histIn q acc emitted cs true =
        { emitted := emitted ++ cs, hist := histIn, ok := false } := by
  intro cs
  induction cs with
  | nil => intro acc emitted; simp [queryGeminiLoop]
  | cons c cs ih =>
      intro acc emitted
      rw [queryGeminiLoop, ih, List.append_assoc]
      rfl

/-- C3: when the generation stream raises after zero or more fragments,
the session history is left untouched, the error is surfaced to the caller
(the call does not complete normally), and exactly the already-produced
fragments were delivered. -/
theorem failed_stream_leaves_history_unchanged (hist : List String)
    (q : String) (s : StreamSpec) (h : s.fails = true) :
    (query_gemini hist q s).hist = hist ∧
    (query_gemini hist q s).ok = false ∧
    (query_gemini hist q s).emitted = s.chunks := by
  unfold query_gemini
  rw [h, queryGeminiLoop_fails]
  exact ⟨rfl, rfl, by simp⟩

theorem failed_stream_leaves_history_unchanged_witness :
    (query_gemini ["Q: old", "A: old answer"] "q"
        { chunks := ["par", "tial"], fails := true }).hist =
      ["Q: old", "A: old answer"] ∧
    (query_gemini ["Q: old", "A: old answer"] "q"
        { chunks := ["par", "tial"], fails := true }).ok = false ∧
    (query_gemini ["Q: old", "A: old answer"] "q"
        { chunks := ["par", "tial"], fails := true }).emitted =
      ["par", "tial"] :=
  failed_stream_leaves_history_unchanged ["Q: old", "A: old answer"] "q"
    { chunks := ["par", "tial"], fails := true } rfl

theorem queryGeminiLoop_ok (histIn : List String) (q : String) :
    ∀ (cs : List String) (acc : String) (emitted : List String),
      queryGeminiLoop histIn q acc emitted cs false =
        { emitted := emitted ++ cs
          hist := dqAppend histCap (dqAppend histCap histIn ("Q: " ++ q))
            ("A: " ++ pyStrip (acc ++ concatAll cs))
          ok := true } := by
  intro cs
  induction cs with
  | nil =>
      intro acc emitted
      rw [queryGeminiLoop]
      simp [concatAll, String.append_empty]
  | cons c cs ih =>
      intro acc emitted
      rw [queryGeminiLoop, ih, List.append_assoc, concatAll,
        ← String.append_assoc]
      rfl

/-- C10: when the stream completes without error, exactly two entries are
appended to the session's bounded deque: first the question with the
`Q: ` marker, then the stripped concatenation of all fragments with the
`A: ` marker. -/
theorem successful_stream_commits_two_entries (hist : List String)
    (q : String) (s : StreamSpec) (h : s.fails = false) :
    (query_gemini hist q s).hist =
      dqAppend histCap (dqAppend histCap hist ("Q: " ++ q))
        ("A: " ++ pyStrip (concatAll s.chunks)) ∧
    (query_gemini hist q s).ok = true := by
  unfold query_gemini
  rw [h, queryGeminiLoop_ok]
  constructor
  · show dqAppend histCap _ ("A: " ++ pyStrip ("" ++ concatAll s.chunks)) = _
    rw [String.empty_append]
  · rfl

theorem successful_stream_commits_two_entries_witness :
    (query_gemini ["Q: old", "A: old answer"] "what"
        { chunks := ["hel", "lo "], fails := false }).hist =
      dqAppend histCap
        (dqAppend histCap ["Q: old", "A: old answer"] ("Q: " ++ "what"))
        ("A: " ++ pyStrip (concatAll ["hel", "lo "])) ∧
    (query_gemini ["Q: old", "A: old answer"] "what"
        { chunks := ["hel", "lo "], fails := false }).ok = true :=
  successful_stream_commits_two_entries ["Q: old", "A: old answer"] "what"
    { chunks := ["hel", "lo "], fails := false } rfl

/-- C9: the persisted index blob restores exactly the pre-save vectors in
their original order; the blob is a function of the vectors alone (two
states agreeing on vectors persist identical blobs, whatever their
datasets), and the startup loader takes the reloaded index from the blob
while the dataset must be supplied and re-associated separately. -/
theorem index_persistence_roundtrip :
    (∀ vecs : List Vec, read_index (write_index vecs) = vecs) ∧
    (∀ st st' : DataIndexer, st.index = st'.index →
      persistBlob st = persistBlob st') ∧
    (∀ (b : Blob) (d : Option DataFrame),
      init_faiss_index (some b) d =
        some { data := d, index := some (read_index b) }) := by
  refine ⟨fun _ => rfl, ?_, fun _ _ => rfl⟩
  intro st st' h
  simp [persistBlob, h]

theorem index_persistence_roundtrip_witness :
    persistBlob { data := none, index := some [[1, 2]] } =
      persistBlob { data := some [], index := some [[1, 2]] } :=
  index_persistence_roundtrip.2.1
    { data := none, index := some [[1, 2]] }
    { data := some [], index := some [[1, 2]] } rfl

/-- C8: ingestion failure conditions.  A missing source file raises at
construction; an unreadable source raises from `read_excel`; a source
that yields zero rows makes `convert_to_json` raise
(`"No data found in the DataFrame."`) instead of producing an empty
dataset, so a successful conversion always returns at least one record. -/
theorem ingestion_error_conditions :
    (∀ (p : String) (d : Option DataFrame),
      dataIndexerInit (some p) false d = Except.error Err.fileNotFound) ∧
    (∀ st : DataIndexer, read_excel st none = Except.error Err.readFailure) ∧
    (∀ (st : DataIndexer) (df : DataFrame), st.data = some df →
      to_records df = [] →
      convert_to_json st = Except.error Err.noDataFound) ∧
    (∀ (st : DataIndexer) (rows : List Record),
      convert_to_json st = Except.ok rows → rows ≠ []) := by
  refine ⟨fun _ _ => rfl, fun _ => rfl, ?_, ?_⟩
  · intro st df hdf hrows
    simp [convert_to_json, hdf, hrows]
  · intro st rows hok
    unfold convert_to_json at hok
    split at hok
    · exact absurd hok (by simp)
    · split at hok
      · exact absurd hok (by simp)
      · injection hok with h2
        rw [← h2]
        simp

theorem ingestion_error_conditions_witness :
    dataIndexerInit (some "missing.xlsx") false none =
      Except.error Err.fileNotFound ∧
    convert_to_json
        { data := some [{ name := "c", dtype := Dtype.object, cells := [] }],
          index := none } =
      Except.error Err.noDataFound ∧
    [recC1] ≠ ([] : List Record) :=
  ⟨ingestion_error_conditions.1 "missing.xlsx" none,
   ingestion_error_conditions.2.2.1
     { data := some [{ name := "c", dtype := Dtype.object, cells := [] }],
       index := none }
     [{ name := "c", dtype := Dtype.object, cells := [] }] rfl (by decide),
   ingestion_error_conditions.2.2.2 stC1 [recC1] (by decide)⟩

theorem verifyNoNull_after_handle (df : DataFrame) :
    verifyNoNull (handle_nat_values df) =
      Except.ok (handle_nat_values df) := by
  unfold verifyNoNull
  rw [hasNull_handle_nat_values df]
  rfl

/-- C4: after normalization no cell is null; the invariant is re-verified
by `index_faiss` before embedding, and the verification step raises
`DataIntegrityError` (a fatal `ValueError`) on any surviving null; since
`handle_nat_values` runs first, no build ever fails that check (no partial
index from a null, no further coercion). -/
theorem normalization_no_null_invariant :
    (∀ df : DataFrame, hasNull (handle_nat_values df) = false) ∧
    (∀ df : DataFrame, hasNull df = true →
      verifyNoNull df = Except.error Err.dataIntegrity) ∧
    (∀ (encode : String → Vec) (st : DataIndexer) (cb : Bool),
      index_faiss encode st cb ≠ Except.error Err.dataIntegrity) := by
  refine ⟨hasNull_handle_nat_values, ?_, ?_⟩
  · intro df h
    unfold verifyNoNull
    rw [h]
    rfl
  · intro encode st cb
    unfold index_faiss
    split
    · simp
    next df _ =>
      split
      next e heq =>
        rw [verifyNoNull_after_handle df] at heq
        exact absurd heq (by simp)
      next cleaned heq =>
        split
        · simp
        next texts hser =>
          split <;> simp

theorem normalization_no_null_invariant_witness :
    hasNull (handle_nat_values dfNull) = false ∧
    verifyNoNull dfNull = Except.error Err.dataIntegrity ∧
    index_faiss (fun _ => [0]) { data := some dfNull, index := none } true ≠
      Except.error Err.dataIntegrity :=
  ⟨normalization_no_null_invariant.1 dfNull,
   normalization_no_null_invariant.2.1 dfNull (by decide),
   normalization_no_null_invariant.2.2 (fun _ => [0])
     { data := some dfNull, index := none } true⟩

theorem addLoop_fst (total : Nat) (cb : Bool) :
    ∀ (embs : List Vec) (i : Nat), (addLoop embs i total cb).1 = embs := by
  intro embs
  induction embs with
  | nil => intro i; rfl
  | cons v vs ih => intro i; simp [addLoop, ih]

theorem addLoop_calls (total : Nat) :
    ∀ (embs : List Vec) (i : Nat),
      (addLoop embs i total true).2 =
        (List.range' (i + 1) embs.length).map (fun j => (j, total)) := by
  intro embs
  induction embs with
  | nil => intro i; rfl
  | cons v vs ih =>
      intro i
      simp [addLoop, ih, List.range'_succ]

theorem mapM_option_length {α β : Type} (f : α → Option β) :
    ∀ (l : List α) (l' : List β), l.mapM f = some l' → l'.length = l.length := by
  intro l
  induction l with
  | nil =>
      intro l' h
      simp only [List.mapM_nil, pure, Option.some.injEq] at h
      rw [← h]
      rfl
  | cons a as ih =>
      intro l' h
      rw [List.mapM_cons] at h
      cases ha : f a with
      | none => rw [ha] at h; simp at h
      | some b =>
          rw [ha] at h
          cases has : as.mapM f with
          | none => rw [has] at h; simp [Option.bind] at h
          | some bs =>
              rw [has] at h
              simp only [Option.bind_eq_bind, Option.some_bind, pure,
                Option.some.injEq] at h
              rw [← h, List.length_cons, List.length_cons, ih bs has]

theorem calls_map_fst (n total : Nat) :
    (((List.range' 1 n).map (fun j => (j, total))).map Prod.fst) =
      List.range' 1 n := by
  rw [List.map_map]
  have h : (Prod.fst ∘ fun j : Nat => (j, total)) = id := rfl
  rw [h, List.map_id]

theorem calls_getLast (n total : Nat) (h : 0 < n) :
    (((List.range' 1 n).map (fun j => (j, total)))).getLast? =
      some (n, total) := by
  cases n with
  | zero => omega
  | succ m =>
      rw [List.range'_concat, List.map_append]
      have h1 : (List.map (fun j : Nat => (j, total)) [1 + 1 * m]) =
          [(m + 1, total)] := by
        have : 1 + 1 * m = m + 1 := by omega
        rw [List.map_cons, List.map_nil, this]
      rw [h1, List.getLast?_concat]

/-- C6: whenever a build succeeds with a progress callback supplied, the
callback is invoked exactly once per inserted vector — `total_count` times
in total, where `total_count` is the number of normalized records — with a
strictly increasing `completed_count` and a final call of
`(total_count, total_count)`; a successful build implies the dataset was
non-empty. -/
theorem progress_callback_per_insertion (encode : String → Vec)
    (st st' : DataIndexer) (df : DataFrame) (calls : List (Nat × Nat))
    (hdf : st.data = some df)
    (hok : index_faiss encode st true = Except.ok (st', calls)) :
    calls.length = (to_records (handle_nat_values df)).length ∧
    0 < (to_records (handle_nat_values df)).length ∧
    (calls.map Prod.fst).Pairwise (· < ·) ∧
    calls.getLast? =
      some ((to_records (handle_nat_values df)).length,
        (to_records (handle_nat_values df)).length) := by
  unfold index_faiss at hok
  split at hok
  next heq => rw [hdf] at heq; exact absurd heq (by simp)
  next df2 heq =>
    rw [hdf] at heq
    injection heq with heq2
    subst heq2
    split at hok
    next e heq3 =>
      rw [verifyNoNull_after_handle df] at heq3
      exact absurd heq3 (by simp)
    next cleaned heq3 =>
      rw [verifyNoNull_after_handle df] at heq3
      injection heq3 with heq4
      subst heq4
      split at hok
      next hser => exact absurd hok (by simp)
      next texts hser =>
        split at hok
        next hemb => exact absurd hok (by simp)
        next e es hemb =>
          injection hok with hpair
          injection hpair with hst hcalls
          have hlen : (e :: es).length =
              (to_records (handle_nat_values df)).length := by
            rw [← hemb, List.length_map,
              mapM_option_length serializeRecord _ _ hser]
          rw [← hcalls, addLoop_calls, hlen]
          refine ⟨?_, ?_, ?_, ?_⟩
          · rw [List.length_map, List.length_range']
          · rw [← hlen]; simp
          · rw [calls_map_fst]
            exact List.pairwise_lt_range' 1 _
          · exact calls_getLast _ _ (by rw [← hlen]; simp)

theorem progress_callback_per_insertion_witness :
    ([(1, 2), (2, 2)] : List (Nat × Nat)).length =
      (to_records (handle_nat_values dfW6)).length ∧
    0 < (to_records (handle_nat_values dfW6)).length ∧
    (([(1, 2), (2, 2)] : List (Nat × Nat)).map Prod.fst).Pairwise (· < ·) ∧
    ([(1, 2), (2, 2)] : List (Nat × Nat)).getLast? =
      some ((to_records (handle_nat_values dfW6)).length,
        (to_records (handle_nat_values dfW6)).length) :=
  progress_callback_per_insertion (fun s => [(s.length : Int)]) stW6
    { data := some (handle_nat_values dfW6), index := some [[10], [11]] }
    dfW6 [(1, 2), (2, 2)] rfl (by decide)

/-- C5 (counterexample): a datetime cell with a non-midnight time is
normalized to `"YYYY-MM-DD HH:MM:SS"`, which does not match `YYYY-MM-DD`. -/
theorem date_normalization_not_yyyymmdd :
    handle_nat_values dfC5 =
      [{ name := "d", dtype := Dtype.object,
         cells := [Cell.str "2021-01-01 15:30:00"] }] ∧
    matchesYYYYMMDD "2021-01-01 15:30:00" = false := by decide

theorem digitChar_mod_isDigit (n : Nat) :
    (Char.ofNat (48 + n % 10)).isDigit = true := by
  have h : n % 10 = 0 ∨ n % 10 = 1 ∨ n % 10 = 2 ∨ n % 10 = 3 ∨ n % 10 = 4 ∨
      n % 10 = 5 ∨ n % 10 = 6 ∨ n % 10 = 7 ∨ n % 10 = 8 ∨ n % 10 = 9 := by
    omega
  rcases h with h | h | h | h | h | h | h | h | h | h <;> rw [h] <;> decide

theorem renderDate_matches (t : PandasDateTime) :
    matchesYYYYMMDD (renderDate t) = true := by
  simp only [matchesYYYYMMDD, renderDate, renderDateChars, digitChar4,
    digitChar2, List.cons_append, List.nil_append, String.toList]
  simp [digitChar_mod_isDigit]

theorem colAllMidnight_fillNulls (c : Column) :
    colAllMidnight (fillNullsCol c) = colAllMidnight c := by
  simp only [colAllMidnight, fillNullsCol, List.all_map]
  congr 1
  funext x
  cases x <;> rfl

/-- C5 (amended): a datetime cell in a datetime-typed column that contains
no nulls and whose timestamps are all at midnight is normalized to the
canonical `YYYY-MM-DD` string.  (With a non-midnight cell the column
renders as `YYYY-MM-DD HH:MM:SS`, and a datetime column containing a null
loses its dtype before the conversion loop, leaving its datetime cells
unconverted.) -/
theorem date_normalization_midnight_iso (c : Column)
    (hdt : c.dtype = Dtype.datetime)
    (hnn : c.cells.any cellIsNull = false)
    (hmid : colAllMidnight c = true)
    (i : Nat) (t : PandasDateTime)
    (hget : c.cells.get? i = some (Cell.dt t)) :
    (handleNatCol c).cells.get? i = some (Cell.str (renderDate t)) ∧
    matchesYYYYMMDD (renderDate t) = true := by
  refine ⟨?_, renderDate_matches t⟩
  have hd : (fillNullsCol c).dtype = Dtype.datetime := by
    simp only [fillNullsCol]
    rw [hnn, hdt]
    decide
  have hcells : (fillNullsCol c).cells.get? i = some (Cell.dt t) := by
    simp only [fillNullsCol]
    rw [List.get?_map, hget]
    rfl
  unfold handleNatCol astypeStrCol
  rw [if_pos hd]
  simp only [List.get?_map, hcells, colAllMidnight_fillNulls, hmid]
  rfl

theorem date_normalization_midnight_iso_witness :
    (handleNatCol
        { name := "d", dtype := Dtype.datetime,
          cells := [Cell.dt ⟨2021, 7, 3, 0, 0, 0⟩] }).cells.get? 0 =
      some (Cell.str (renderDate ⟨2021, 7, 3, 0, 0, 0⟩)) ∧
    matchesYYYYMMDD (renderDate ⟨2021, 7, 3, 0, 0, 0⟩) = true :=
  date_normalization_midnight_iso
    { name := "d", dtype := Dtype.datetime,
      cells := [Cell.dt ⟨2021, 7, 3, 0, 0, 0⟩] }
    rfl (by decide) (by decide) 0 ⟨2021, 7, 3, 0, 0, 0⟩ (by decide)

theorem dqAppend_small (cap : Nat) (xs : List String) (x : String)
    (h : xs.length + 1 ≤ cap) : dqAppend cap xs x = xs ++ [x] := by
  unfold dqAppend
  have h0 : (xs ++ [x]).length - cap = 0 := by
    rw [List.length_append, List.length_singleton]
    omega
  rw [h0, List.drop_zero]

theorem dqAppend_full (cap : Nat) (xs : List String) (x : String)
    (hlen : xs.length = cap) (hcap : 1 ≤ cap) :
    dqAppend cap xs x = xs.drop 1 ++ [x] := by
  unfold dqAppend
  have h1 : (xs ++ [x]).length - cap = 1 := by
    rw [List.length_append, List.length_singleton]
    omega
  rw [h1, List.drop_append_of_le_length (by omega)]

theorem encTurns_append (a b : List (String × String)) :
    encTurns (a ++ b) = encTurns a ++ encTurns b := by
  induction a with
  | nil => rfl
  | cons t ts ih => simp [encTurns, ih]

theorem encTurns_length (l : List (String × String)) :
    (encTurns l).length = 2 * l.length := by
  induction l with
  | nil => rfl
  | cons t ts ih =>
      simp only [encTurns, encTurn, List.length_append, List.length_cons,
        ih, List.length_nil]
      omega

theorem runTurn_eq (h : List String) (t : String × String) :
    runTurn h t =
      dqAppend histCap (dqAppend histCap h ("Q: " ++ t.1))
        ("A: " ++ pyStrip t.2) := by
  unfold runTurn query_gemini
  rw [queryGeminiLoop_ok]
  show dqAppend histCap (dqAppend histCap h ("Q: " ++ t.1))
      ("A: " ++ pyStrip ("" ++ concatAll [t.2])) = _
  have hs : ("" ++ concatAll [t.2] : String) = t.2 := by
    show ("" ++ (t.2 ++ "") : String) = t.2
    rw [String.append_empty, String.empty_append]
  rw [hs]

theorem runTurn_encL5 (pre : List (String × String)) (t : String × String) :
    runTurn (encTurns (pre.drop (pre.length - 5))) t =
      encTurns ((pre ++ [t]).drop ((pre ++ [t]).length - 5)) := by
  rw [runTurn_eq]
  by_cases hle : pre.length ≤ 4
  · have h1 : pre.length - 5 = 0 := by omega
    have h2 : (pre ++ [t]).length - 5 = 0 := by
      rw [List.length_append, List.length_singleton]
      omega
    rw [h1, h2, List.drop_zero, List.drop_zero]
    rw [dqAppend_small histCap (encTurns pre) ("Q: " ++ t.1)
      (by rw [encTurns_length]; unfold histCap; omega)]
    rw [dqAppend_small histCap (encTurns pre ++ ["Q: " ++ t.1])
      ("A: " ++ pyStrip t.2)
      (by
        rw [List.length_append, encTurns_length, List.length_singleton]
        unfold histCap
        omega)]
    rw [encTurns_append]
    simp [encTurns, encTurn]
  · have h5 : 5 ≤ pre.length := by omega
    have hlen5 : (pre.drop (pre.length - 5)).length = 5 := by
      rw [List.length_drop]
      omega
    have henc10 : (encTurns (pre.drop (pre.length - 5))).length = 10 := by
      rw [encTurns_length, hlen5]
    obtain ⟨a, ha⟩ : ∃ a, pre.drop (pre.length - 5) =
        a :: pre.drop (pre.length - 4) := by
      refine ⟨pre.get ⟨pre.length - 5, by omega⟩, ?_⟩
      rw [List.drop_eq_getElem_cons (by omega : pre.length - 5 < pre.length)]
      have h45 : pre.length - 5 + 1 = pre.length - 4 := by omega
      rw [h45]
      rfl
    rw [dqAppend_full histCap (encTurns (pre.drop (pre.length - 5)))
      ("Q: " ++ t.1) (by rw [henc10]; decide) (by decide)]
    rw [dqAppend_full histCap
      ((encTurns (pre.drop (pre.length - 5))).drop 1 ++ ["Q: " ++ t.1])
      ("A: " ++ pyStrip t.2)
      (by
        rw [List.length_append, List.length_drop, henc10,
          List.length_singleton]
        decide)
      (by decide)]
    rw [List.drop_append_of_le_length (by rw [List.length_drop, henc10]; omega)]
    rw [List.drop_drop]
    have hdrop2 : (encTurns (pre.drop (pre.length - 5))).drop (1 + 1) =
        encTurns (pre.drop (pre.length - 4)) := by
      rw [ha]
      simp [encTurns, encTurn]
    rw [hdrop2]
    have hR : (pre ++ [t]).drop ((pre ++ [t]).length - 5) =
        pre.drop (pre.length - 4) ++ [t] := by
      rw [List.length_append, List.length_singleton]
      have h46 : pre.length + 1 - 5 = pre.length - 4 := by omega
      rw [h46, List.drop_append_of_le_length (by omega)]
    rw [hR, encTurns_append]
    simp [encTurns, encTurn]

theorem runTurns_encL5 (ts : List (String × String)) :
    ∀ pre : List (String × String),
      runTurns ts (encTurns (pre.drop (pre.length - 5))) =
        encTurns ((pre ++ ts).drop ((pre ++ ts).length - 5)) := by
  induction ts with
  | nil => intro pre; simp [runTurns]
  | cons t ts ih =>
      intro pre
      show runTurns ts (runTurn (encTurns (pre.drop (pre.length - 5))) t) =
        encTurns ((pre ++ t :: ts).drop ((pre ++ t :: ts).length - 5))
      rw [runTurn_encL5, ih (pre ++ [t]), List.append_assoc]
      rfl

/-- C2 (amended): the session history is a deque of string entries capped
at 10, i.e. at the 5 most recent question/answer turns (each committed
turn occupies two entries, question then answer); turns are appended at
the tail with oldest entries evicted from the head (FIFO), so a fresh
session that has seen any sequence of turns retains exactly the entries
of the 5 most recent turns, oldest-first, and never exceeds 10 entries. -/
theorem history_keeps_last_five_turns (ts : List (String × String)) :
    runTurns ts [] = encTurns (ts.drop (ts.length - 5)) ∧
    (runTurns ts []).length ≤ 10 := by
  have h0 := runTurns_encL5 ts []
  simp only [List.length_nil, List.drop_nil, List.nil_append,
    Nat.zero_sub] at h0
  have h1 : encTurns ([] : List (String × String)) = [] := rfl
  rw [h1] at h0
  refine ⟨h0, ?_⟩
  rw [h0, encTurns_length, List.length_drop]
  omega

/-- C2 (counterexample): after 11 completed turns in a fresh session, the
history holds the entries of the 5 most recent turns only — not the 10
most recent turns the claim asserts (`turns11.drop 1`). -/
theorem history_cap_ten_turns_refuted :
    runTurns turns11 [] =
      ["Q: 7", "A: g", "Q: 8", "A: h", "Q: 9", "A: i",
       "Q: 10", "A: j", "Q: 11", "A: k"] ∧
    runTurns turns11 [] ≠ encTurns (turns11.drop 1) := by decide
